import Mathlib

/-!
Verification development for the adaptive-learning intelligence core of the
prepmate-ai repository (directory `ai-services/app/ml`).  The Python source is
shallowly embedded: purely rational computations are modelled over `ℚ`,
computations involving `exp`/`sqrt` over `ℝ`, and code paths that raise a
Python exception are modelled with `Except`.  Line references point into the
corresponding Python files.
-/

namespace PrepMate

/-- Embeds `np.clip(x, 0.0, 1.0)` on rationals. -/
def clip01 (x : ℚ) : ℚ := max 0 (min 1 x)

/-- Embeds `np.clip(x, 0.0, 100.0)` on rationals. -/
def clip0100 (x : ℚ) : ℚ := max 0 (min 100 x)

/-- Embeds `np.clip(x, 0.0, 1.0)` on reals. -/
noncomputable def clip01R (x : ℝ) : ℝ := max 0 (min 1 x)

/-! ## Mastery Engine (mastery_engine.py) -/

/-- BKT parameter `P_INIT` (mastery_engine.py line 39). -/
def P_INIT : ℚ := 1/10

/-- BKT parameter `P_LEARN` (line 40). -/
def P_LEARN : ℚ := 3/20

/-- BKT parameter `P_GUESS` (line 41). -/
def P_GUESS : ℚ := 1/10

/-- BKT parameter `P_SLIP` (line 42). -/
def P_SLIP : ℚ := 1/20

/-- Effective learning rate: `p_learn` scaled by the difficulty factor and
reduced multiplicatively per hint used (mastery_engine.py lines 71-76). -/
def effectiveLearnRate (difficultyFactor : ℚ) (hintsUsed : ℕ) : ℚ :=
  let pl := P_LEARN * difficultyFactor
  if 0 < hintsUsed then pl * max (1/2) (1 - (hintsUsed : ℚ) * (1/5)) else pl

/-- Posterior mastery probability of one `BayesianKnowledgeTracing.update`
step (mastery_engine.py lines 52-114): Bayes step on the evidence, then a
learning blend on a correct answer or a 0.95 decay on an incorrect one,
clamped to [0,1].  The confidence component of the pair the Python method
returns is `bktConfidence` below. -/
def bktUpdate (prior : ℚ) (correct : Bool) (difficultyFactor : ℚ)
    (hintsUsed : ℕ) : ℚ :=
  let pLearn := effectiveLearnRate difficultyFactor hintsUsed
  let posterior :=
    if correct then
      let pKnowsAfterAttempt := prior * (1 - P_SLIP) /
        (prior * (1 - P_SLIP) + (1 - prior) * P_GUESS)
      pKnowsAfterAttempt + (1 - pKnowsAfterAttempt) * pLearn
    else
      let pKnowsAfterAttempt := prior * P_SLIP /
        (prior * P_SLIP + (1 - prior) * (1 - P_GUESS))
      pKnowsAfterAttempt * (19/20)
  clip01 posterior

/-- Confidence component of `BayesianKnowledgeTracing.update`
(mastery_engine.py lines 116-118): `1 - exp(-|posterior - 0.5| * 2)`,
clamped to [0,1]. -/
noncomputable def bktConfidence (posterior : ℝ) : ℝ :=
  clip01R (1 - Real.exp (-|posterior - 1/2| * 2))

/-- One attempt record as consumed by `batch_update`
(mastery_engine.py lines 136-140). -/
structure Attempt where
  correct : Bool
  difficulty : ℚ
  hints_used : ℕ
  time_factor : ℚ

/-- Sequential loop of `batch_update` (mastery_engine.py lines 133-146):
returns the final mastery probability and the list of per-step confidences. -/
noncomputable def batchUpdateGo (current : ℚ) (attempts : List Attempt) :
    ℚ × List ℝ :=
  match attempts with
  | [] => (current, [])
  | a :: rest =>
      let diffFactor := 1/2 + a.difficulty / 3
      let next := bktUpdate current a.correct diffFactor a.hints_used
      let conf := bktConfidence (next : ℝ)
      let r := batchUpdateGo next rest
      (r.1, conf :: r.2)

/-- Embeds `BayesianKnowledgeTracing.batch_update` (mastery_engine.py lines 122-149):
final probability and average confidence, 0.5 when the attempt list is
empty. -/
noncomputable def batchUpdate (prior : ℚ) (attempts : List Attempt) : ℚ × ℝ :=
  let r := batchUpdateGo prior attempts
  (r.1, if r.2.isEmpty then 1/2 else r.2.sum / r.2.length)

/-- Result record of `update_mastery` (fields of `MasteryMetrics` that the
pure computation determines). -/
structure MasteryMetrics where
  mastery_probability : ℚ
  confidence_score : ℝ
  improvement_trend : String
  recommended_difficulty : String

/-- Pure core of `MasteryEngine.update_mastery` (mastery_engine.py lines
175-270).  `currentDoc` is the stored mastery probability, if a record
exists.  Building the explainability dict divides by `len(request.attempts)`
(line 225), so an empty attempt list raises `ZeroDivisionError` before any
result is returned; this is modelled as the error case. -/
noncomputable def updateMastery (currentDoc : Option ℚ)
    (attempts : List Attempt) : Except String MasteryMetrics :=
  let prior := currentDoc.getD (1/10)
  let pc := batchUpdate prior attempts
  let posterior := pc.1
  let confidence := pc.2
  let trend :=
    match currentDoc with
    | some previous =>
        if posterior > previous + 1/20 then "improving"
        else if posterior < previous - 1/20 then "declining"
        else "stable"
    | none => if posterior > prior then "improving" else "stable"
  let recDifficulty :=
    if posterior < 2/5 then "easy"
    else if posterior < 7/10 then "medium"
    else "hard"
  if attempts.length = 0 then
    Except.error "ZeroDivisionError: division by zero"
  else
    Except.ok ⟨posterior, confidence, trend, recDifficulty⟩

/-! ## Retention Model (retention_model.py) -/

/-- Embeds `EbbinghausForgettingCurve.DEFAULT_STABILITY` (retention_model.py
line 37). -/
noncomputable def DEFAULT_STABILITY : ℝ := 3

/-- Embeds `EbbinghausForgettingCurve.retention_probability` (retention_model.py
lines 39-62): `R(t) = exp(-t/S)` with `t` in days, a non-positive stability
replaced by the default, and the result clamped to [0,1]. -/
noncomputable def retentionProbability (timeElapsedHours stabilityDays : ℝ) :
    ℝ :=
  let s := if stabilityDays ≤ 0 then DEFAULT_STABILITY else stabilityDays
  let timeDays := timeElapsedHours / 24
  clip01R (Real.exp (-timeDays / s))

/-- Stability multiplier applied on a successful revision
(retention_model.py line 86): `1.3 * (2.0 - (1.0 - retention_at_review))`. -/
noncomputable def successFactor (retentionAtReview : ℝ) : ℝ :=
  13/10 * (2 - (1 - retentionAtReview))

/-- Embeds `EbbinghausForgettingCurve.update_stability` (retention_model.py lines
64-95): multiply by the success factor on success, halve on failure, then
bound to [1, 30]. -/
noncomputable def updateStability (currentStability : ℝ)
    (successfulRevision : Bool) (retentionAtReview : ℝ) : ℝ :=
  let ns :=
    if successfulRevision then currentStability * successFactor retentionAtReview
    else currentStability * (1/2)
  max 1 (min 30 ns)

/-- Urgency classification of `update_retention` (retention_model.py lines
199-207). -/
noncomputable def urgencyLevel (retentionNow : ℝ) : String :=
  if retentionNow < 3/10 then "critical"
  else if retentionNow < 1/2 then "high"
  else if retentionNow < 3/4 then "medium"
  else "low"

/-- Output of the pure core of `update_retention`. -/
structure RetentionOutcome where
  retention_probability : ℝ
  stability_score : ℝ
  urgency_level : String

/-- Pure core of `RetentionModel.update_retention` (retention_model.py lines
148-256).  `storedStability` is the stability of the stored record, if one
exists (default 3.0 otherwise, line 168); `timeSinceLastHours` is the elapsed
time used at line 175/177. -/
noncomputable def updateRetention (storedStability : Option ℝ)
    (isSuccessfulRevision : Bool) (timeSinceLastHours : ℝ) : RetentionOutcome :=
  let currentStability := storedStability.getD DEFAULT_STABILITY
  let retentionNow := retentionProbability timeSinceLastHours currentStability
  let newStability :=
    updateStability currentStability isSuccessfulRevision retentionNow
  ⟨retentionNow, newStability, urgencyLevel retentionNow⟩

/-! ## Weakness Detection (weakness_detection.py) -/

/-- Embeds `WeaknessDetection._determine_signal_type` (weakness_detection.py lines
95-108): the branches are tried in order, each requiring the gap to equal the
maximum and to exceed 0.3. -/
def determineSignalType (masteryGap retentionRisk difficultyGap : ℚ) :
    String :=
  let maxGap := max masteryGap (max retentionRisk difficultyGap)
  if maxGap = masteryGap ∧ masteryGap > 3/10 then "mastery_gap"
  else if maxGap = retentionRisk ∧ retentionRisk > 3/10 then "retention_decay"
  else if maxGap = difficultyGap ∧ difficultyGap > 3/10 then
    "performance_variance"
  else "general_weakness"

/-- Embeds `WeaknessDetection._calculate_topic_risk_score` (weakness_detection.py
lines 110-140): weighted gap combination, discounted by consistency, scaled
to 0-100 and clamped. -/
def calculateTopicRiskScore
    (masteryGap retentionRisk difficultyGap consistencyScore : ℚ) : ℚ :=
  let consistencyFactor := 1 - consistencyScore * (3/10)
  let weightedRisk :=
    masteryGap * (7/20) + retentionRisk * (1/4) + difficultyGap * (1/4)
      + (1 - consistencyScore) * (3/20)
  clip0100 (weightedRisk * consistencyFactor * 100)

/-! ## Adaptive Planner (adaptive_planner.py) -/

/-- A task candidate as built by `generate_adaptive_plan`
(adaptive_planner.py lines 211-220); only the fields the selection loop and
the plan totals read are kept. -/
structure Candidate where
  topic_id : String
  task_type : String
  difficulty : String
  priority : ℚ
  time_minutes : ℤ

/-- Embeds the sort by descending priority of `generate_adaptive_plan` (adaptive_planner.py
line 223): stable sort by descending priority. -/
def sortByPriority (candidates : List Candidate) : List Candidate :=
  candidates.mergeSort (fun a b => b.priority ≤ a.priority)

/-- Greedy packing loop of `generate_adaptive_plan` (adaptive_planner.py
lines 226-246): walk the candidates in order, keeping each one whose time
estimate still fits in the budget, accumulating `total_time`. -/
def selectTasks (candidates : List Candidate) (budget : ℤ) (totalTime : ℤ) :
    List Candidate × ℤ :=
  match candidates with
  | [] => ([], totalTime)
  | c :: rest =>
      if totalTime + c.time_minutes ≤ budget then
        let r := selectTasks rest budget (totalTime + c.time_minutes)
        (c :: r.1, r.2)
      else
        selectTasks rest budget totalTime

/-- The plan fields the budget claims are about: `tasks_today` and
`total_study_minutes` (adaptive_planner.py lines 281-289). -/
structure PlanCore where
  tasks_today : List Candidate
  total_study_minutes : ℤ

/-- Task selection and totals of `generate_adaptive_plan` (adaptive_planner.py
lines 222-289): sort the candidates by descending priority, greedily pack
them into `daily_study_minutes`, and report the accumulated `total_time` as
`total_study_minutes` (line 284).  This code is UNREACHABLE in the source:
`generateAdaptivePlan` below raises before any candidate is built, so this
definition embeds only the dead continuation of the method. -/
def generatePlanCore (candidates : List Candidate) (dailyStudyMinutes : ℤ) :
    PlanCore :=
  let sel := selectTasks (sortByPriority candidates) dailyStudyMinutes 0
  ⟨sel.1, sel.2⟩

/-- Sum of `estimated_time_minutes` over a task list. -/
def sumTimes (tasks : List Candidate) : ℤ :=
  (tasks.map Candidate.time_minutes).sum

/-- Pure core of `AdaptivePlanner.generate_adaptive_plan` (adaptive_planner.py
lines 131-293).  Line 152 calls `analyze_weaknesses` with the plain dict
literal written at lines 152-154, and `analyze_weaknesses` immediately reads
`request.user_id` (weakness_detection.py line 157), which raises
`AttributeError` for a dict; the broad except blocks of both methods
(weakness_detection.py lines 282-284, adaptive_planner.py lines 291-293) log
and re-raise.  The planner is always constructed with this detector
(app/ml/`__init__`.py line 48), so every call fails here, before any
candidate is built, and no plan is ever returned.  The unreachable remainder
(candidate construction, sorting and greedy packing) is embedded separately
as `generatePlanCore`. -/
def generateAdaptivePlan (userId : String) (dailyStudyMinutes : ℤ) :
    Except String PlanCore :=
  Except.error "AttributeError: dict object has no attribute user_id"

/-! ## Readiness Model (readiness_model.py) -/

/-- Fallback feature weights (readiness_model.py lines 151-153). -/
noncomputable def FEATURE_WEIGHTS : Fin 7 → ℝ :=
  ![1/4, 3/20, 3/20, 3/20, 3/20, 1/10, 1/20]

/-- Mean of the 7-dimensional feature vector. -/
noncomputable def featureMean (f : Fin 7 → ℝ) : ℝ := (∑ i, f i) / 7

/-- Embeds `np.std` (population standard deviation) of the feature vector. -/
noncomputable def featureStd (f : Fin 7 → ℝ) : ℝ :=
  Real.sqrt ((∑ i, (f i - featureMean f) ^ 2) / 7)

/-- Embeds `ReadinessModel._fallback_prediction` (readiness_model.py lines 145-164):
weighted feature combination through the logistic
`100 / (1 + exp(-10 (score - 0.5)))`, confidence
`clip(1 - std * 0.5, 0.3, 0.95)`. -/
noncomputable def fallbackPrediction (f : Fin 7 → ℝ) : ℝ × ℝ :=
  let weightedScore := ∑ i, f i * FEATURE_WEIGHTS i
  let readiness := 100 * (1 / (1 + Real.exp (-10 * (weightedScore - 1/2))))
  let confidence := max (3/10) (min (19/20) (1 - featureStd f * (1/2)))
  (readiness, confidence)

/-- Trained-model path of `predict_readiness` (readiness_model.py lines
203-205): the raw regressor output times 100, with no clamp. -/
noncomputable def trainedReadiness (modelOutput : ℝ) : ℝ := modelOutput * 100

/-- Passing-probability transform of `predict_readiness` (readiness_model.py
lines 229-232): `1 / (1 + exp(-5 (readiness/100 - 0.5)))`, clamped to [0,1].
The adjacent `passing_threshold = 0.7` constant (line 230) is never used by
the formula, which centers the logistic at a readiness score of 50. -/
noncomputable def passingProb (readinessScore : ℝ) : ℝ :=
  clip01R (1 / (1 + Real.exp (-5 * (readinessScore / 100 - 1/2))))

/-- Fields of `ReadinessPrediction` the pure computation determines. -/
structure ReadinessPrediction where
  readiness_score : ℝ
  confidence_score : ℝ
  probability_passing : ℝ
  time_to_readiness_days : ℤ

/-- Pure core of `ReadinessModel.predict_readiness` (readiness_model.py lines
166-288), parameterized by whether a trained model is loaded, its raw output,
and the extracted feature vector.  Line 218 evaluates
`timedelta(days=days_to_target)`, but readiness_model.py imports only
`datetime` (line 9) and never `timedelta`, so every call raises `NameError`
there, after the score and `days_to_target` are computed and before any
prediction is returned; the broad except-block (lines 286-288) logs and
re-raises.  The unreachable remainder of the method is therefore modelled by
the error result. -/
noncomputable def predictReadiness (modelLoaded : Bool) (modelOutput : ℝ)
    (features : Fin 7 → ℝ) : Except String ReadinessPrediction :=
  let rc :=
    if modelLoaded then (trainedReadiness modelOutput, (85/100 : ℝ))
    else fallbackPrediction features
  let readinessScore := rc.1
  let gap := max 0 (80 - readinessScore)
  let daysToTarget : ℤ := ⌊gap / 2⌋
  Except.error "NameError: name timedelta is not defined"

/-! ## Preparation Simulator (simulator.py) -/

/-- One topic of the stored mastery profile as read by `run_simulation`
(simulator.py lines 68-70). -/
structure SimTopic where
  topic_id : String
  mastery : ℚ

/-- Embeds `SimulationScenario` (simulator.py lines 14-19). -/
structure SimScenario where
  daily_study_hours : ℚ
  focus_topics : List String
  timeline_days : ℕ
  consistency : String

/-- Consistency multiplier table (simulator.py lines 56-58), defaulting to
1.0 for an unknown label. -/
def consistencyFactor (consistency : String) : ℚ :=
  if consistency = "high" then 6/5
  else if consistency = "medium" then 1
  else if consistency = "low" then 7/10
  else 1

/-- Projected mastery of one topic for one day of the simulation loop
(simulator.py lines 68-79).  The loop body reads `topic.get("mastery", 0.1)`
from the stored profile on every day, so the value does not depend on the day
index. -/
def simTopicDayMastery (scenario : SimScenario) (topic : SimTopic) : ℚ :=
  let cf := consistencyFactor scenario.consistency
  let studyFactor := scenario.daily_study_hours / 2
  let dailyImprovement :=
    if scenario.focus_topics.contains topic.topic_id then
      (1/50) * studyFactor * cf
    else (1/200) * cf
  min 1 (topic.mastery + dailyImprovement)

/-- One day of the readiness trajectory (simulator.py lines 64-85): mean
projected mastery across topics, times 100. -/
def simDayReadiness (profile : List SimTopic) (scenario : SimScenario) : ℚ :=
  ((profile.map (simTopicDayMastery scenario)).sum / profile.length) * 100

/-- The projected readiness trajectory of `run_simulation` (simulator.py
lines 64-85): one entry per simulated day when the profile is non-empty. -/
def simTrajectory (profile : List SimTopic) (scenario : SimScenario) :
    List ℚ :=
  if profile.length = 0 then []
  else (List.range scenario.timeline_days).map
    (fun _ => simDayReadiness profile scenario)

/-- The per-topic projected mastery curve of `run_simulation` (simulator.py
lines 78-79): the day value appended once per simulated day. -/
def simMasteryCurve (scenario : SimScenario) (topic : SimTopic) : List ℚ :=
  (List.range scenario.timeline_days).map
    (fun _ => simTopicDayMastery scenario topic)

/-- Completion forecast of `run_simulation` (simulator.py lines 87-92): the
day offset of the first trajectory entry at or above 80, else 0 (the
current date). -/
def completionOffsetDays (trajectory : List ℚ) : ℕ :=
  match trajectory.findIdx? (fun r => decide (80 ≤ r)) with
  | some idx => idx
  | none => 0

/-- Concrete mastery profile used to exercise the simulator: one topic at
mastery 0.5. -/
def c2Profile : List SimTopic := [⟨"trees", 1/2⟩]

/-- Concrete scenario: 2 study hours per day, focus on the single topic, a
2-day horizon, high consistency (study factor 1, consistency factor 1.2,
daily focused gain 0.024). -/
def c2Scenario : SimScenario := ⟨2, ["trees"], 2, "high"⟩

/-! ## Helper lemmas about the clamps -/

theorem clip01_nonneg (x : ℚ) : 0 ≤ clip01 x := le_max_left _ _

theorem clip01_le_one (x : ℚ) : clip01 x ≤ 1 :=
  max_le (by norm_num) (min_le_left _ _)

theorem lt_clip01 {p x : ℚ} (hp : p < 1) (hx : p < x) : p < clip01 x :=
  lt_of_lt_of_le (lt_min hp hx) (le_max_right _ _)

theorem clip01R_nonneg (x : ℝ) : 0 ≤ clip01R x := le_max_left _ _

theorem clip01R_le_one (x : ℝ) : clip01R x ≤ 1 :=
  max_le (by norm_num) (min_le_left _ _)

theorem clip0100_nonneg (x : ℚ) : 0 ≤ clip0100 x := le_max_left _ _

theorem clip0100_le (x : ℚ) : clip0100 x ≤ 100 :=
  max_le (by norm_num) (min_le_left _ _)

/-! ## Claims -/

/-- C10: `update_mastery` on a request with an empty attempts list raises
`ZeroDivisionError` while building the success-rate explainability string and
never returns a `MasteryMetrics` result, even though `batch_update` itself
handles the empty list by returning the prior unchanged with confidence
0.5. -/
theorem C10_empty_attempts_division_by_zero (currentDoc : Option ℚ)
    (attempts : List Attempt) (h : attempts = []) :
    updateMastery currentDoc attempts =
      Except.error "ZeroDivisionError: division by zero"
    ∧ ∀ prior : ℚ, batchUpdate prior [] = (prior, 1/2) := by
  subst h
  exact ⟨rfl, fun prior => rfl⟩

/-- Witness for C10 at a concrete stored record. -/
theorem C10_empty_attempts_witness :
    updateMastery (some (1/2)) [] =
      Except.error "ZeroDivisionError: division by zero"
    ∧ ∀ prior : ℚ, batchUpdate prior [] = (prior, 1/2) :=
  C10_empty_attempts_division_by_zero (some (1/2)) [] rfl

/-- C4 counterexample: the success multiplier `1.3 * (2 - (1 - R))` is
`1.3` at retention 0 and `2.6` at retention 1, so the multiplier applied at
the lower retention is NOT greater than the one applied at the higher
retention. -/
theorem C4_boost_direction_counterexample :
    ¬ (successFactor 0 > successFactor 1) := by
  unfold successFactor
  norm_num

/-- C4 (amended): on a successful revision `update_stability` multiplies the
stability by `1.3 * (2 - (1 - R))` (then bounds it to [1,30]), and the boost
is stronger when retention was HIGHER: the multiplier is strictly increasing
in the retention measured at review time. -/
theorem C4_success_boost_monotone :
    (∀ s r : ℝ, updateStability s true r =
      max 1 (min 30 (s * (13/10 * (2 - (1 - r))))))
    ∧ ∀ r1 r2 : ℝ, r1 < r2 → successFactor r1 < successFactor r2 := by
  refine ⟨fun s r => rfl, fun r1 r2 h => ?_⟩
  unfold successFactor
  linarith

/-- Witness for C4 at retentions 0 < 1. -/
theorem C4_success_boost_monotone_witness :
    successFactor 0 < successFactor 1 :=
  C4_success_boost_monotone.2 0 1 (by norm_num)

/-- C8 counterexample: with mastery gap and retention risk tied at 0.5 (both
the maximum, both above 0.3) the code returns "mastery_gap", not the
"general_weakness" default the claim promises for ties. -/
theorem C8_tie_counterexample :
    determineSignalType (1/2) (1/2) 0 = "mastery_gap"
    ∧ determineSignalType (1/2) (1/2) 0 ≠ "general_weakness" := by
  have hmax : max (1/2 : ℚ) (max (1/2) 0) = 1/2 := by
    rw [max_eq_left (by norm_num : (0:ℚ) ≤ 1/2), max_self]
  have hval : determineSignalType (1/2) (1/2) 0 = "mastery_gap" := by
    simp only [determineSignalType]
    rw [hmax, if_pos ⟨rfl, by norm_num⟩]
  exact ⟨hval, by rw [hval]; decide⟩

/-- C8 (amended): the detector classifies the signal as the gap that is
largest and above 0.3, with ties broken by the fixed branch order
mastery_gap, then retention_decay, then performance_variance;
"general_weakness" is returned exactly when no gap exceeds 0.3 is the
maximum — in particular when the largest gap is at most 0.3, and a tie
between the mastery gap and the others above 0.3 yields "mastery_gap". -/
theorem C8_signal_classification (mg rr dg : ℚ) :
    (max mg (max rr dg) ≤ 3/10 →
      determineSignalType mg rr dg = "general_weakness")
    ∧ (rr < mg → dg < mg → 3/10 < mg →
      determineSignalType mg rr dg = "mastery_gap")
    ∧ (mg < rr → dg < rr → 3/10 < rr →
      determineSignalType mg rr dg = "retention_decay")
    ∧ (mg < dg → rr < dg → 3/10 < dg →
      determineSignalType mg rr dg = "performance_variance")
    ∧ (rr = mg → dg ≤ mg → 3/10 < mg →
      determineSignalType mg rr dg = "mastery_gap") := by
  refine ⟨fun hmax => ?_, fun h1 h2 h3 => ?_, fun h1 h2 h3 => ?_,
    fun h1 h2 h3 => ?_, fun h1 h2 h3 => ?_⟩
  · have hmg : ¬ (3/10 < mg) := not_lt.2 ((le_max_left _ _).trans hmax)
    have hrr : ¬ (3/10 < rr) :=
      not_lt.2 (((le_max_left _ _).trans (le_max_right _ _)).trans hmax)
    have hdg : ¬ (3/10 < dg) :=
      not_lt.2 (((le_max_right _ _).trans (le_max_right _ _)).trans hmax)
    simp only [determineSignalType]
    split_ifs with h1 h2 h3
    · exact absurd h1.2 hmg
    · exact absurd h2.2 hrr
    · exact absurd h3.2 hdg
    · rfl
  · have hmax : max mg (max rr dg) = mg := max_eq_left (max_le h1.le h2.le)
    simp only [determineSignalType]
    rw [hmax, if_pos ⟨rfl, h3⟩]
  · have hinner : max rr dg = rr := max_eq_left h2.le
    have hmax : max mg (max rr dg) = rr := by
      rw [hinner]; exact max_eq_right h1.le
    simp only [determineSignalType]
    rw [hmax, if_neg (fun hc => absurd hc.1 (ne_of_gt h1)),
      if_pos ⟨rfl, h3⟩]
  · have hinner : max rr dg = dg := max_eq_right h2.le
    have hmax : max mg (max rr dg) = dg := by
      rw [hinner]; exact max_eq_right h1.le
    simp only [determineSignalType]
    rw [hmax, if_neg (fun hc => absurd hc.1 (ne_of_gt h1)),
      if_neg (fun hc => absurd hc.1 (ne_of_gt h2)), if_pos ⟨rfl, h3⟩]
  · have hmax : max mg (max rr dg) = mg :=
      max_eq_left (max_le (le_of_eq h1) h2)
    simp only [determineSignalType]
    rw [hmax, if_pos ⟨rfl, h3⟩]

/-- Witness for C8 with a dominant mastery gap. -/
theorem C8_signal_classification_witness :
    determineSignalType (1/2) 0 0 = "mastery_gap" :=
  (C8_signal_classification (1/2) 0 0).2.1 (by norm_num) (by norm_num)
    (by norm_num)

/-- C2: evaluated at a one-topic profile at mastery 0.5 with that topic
focused (study factor 1, consistency factor 1.2, focused daily gain 0.024),
the day-2 projected mastery equals the day-1 value 0.524 instead of
0.524 + 0.024: the loop re-reads the stored base mastery every day, so the
mastery curve and readiness trajectory are constant and nothing
accumulates. -/
theorem C2_projection_does_not_accumulate :
    simMasteryCurve c2Scenario ⟨"trees", 1/2⟩ = [131/250, 131/250]
    ∧ simTrajectory c2Profile c2Scenario = [262/5, 262/5]
    ∧ ¬ ((131 : ℚ)/250 + (1/50) * (2/2) * (6/5) = 131/250) := by
  have hv : simTopicDayMastery c2Scenario ⟨"trees", 1/2⟩ = 131/250 := by
    simp [simTopicDayMastery, consistencyFactor, c2Scenario, min_def]
    norm_num
  have hd : simDayReadiness c2Profile c2Scenario = 262/5 := by
    simp only [simDayReadiness, c2Profile, List.map_cons, List.map_nil,
      List.sum_cons, List.sum_nil, List.length_cons, List.length_nil]
    rw [hv]
    norm_num
  refine ⟨?_, ?_, by norm_num⟩
  · simp only [simMasteryCurve]
    rw [show c2Scenario.timeline_days = 2 from rfl,
      show List.range 2 = [0, 1] from rfl]
    simp only [List.map_cons, List.map_nil]
    rw [hv]
  · simp only [simTrajectory]
    rw [if_neg (by decide : ¬ (c2Profile.length = 0)),
      show c2Scenario.timeline_days = 2 from rfl,
      show List.range 2 = [0, 1] from rfl]
    simp only [List.map_cons, List.map_nil]
    rw [hd]

/-- Unfolded form of the correct-answer branch of `bktUpdate`. -/
theorem bktUpdate_true_eq (p d : ℚ) (h : ℕ) :
    bktUpdate p true d h =
      clip01 (p * (1 - P_SLIP) / (p * (1 - P_SLIP) + (1 - p) * P_GUESS)
        + (1 - p * (1 - P_SLIP) / (p * (1 - P_SLIP) + (1 - p) * P_GUESS))
          * effectiveLearnRate d h) := rfl

/-- Unfolded form of the incorrect-answer branch of `bktUpdate`. -/
theorem bktUpdate_false_eq (p d : ℚ) (h : ℕ) :
    bktUpdate p false d h =
      clip01 (p * P_SLIP / (p * P_SLIP + (1 - p) * (1 - P_GUESS))
        * (19/20)) := rfl

/-- The effective learning rate is positive for a positive difficulty
factor. -/
theorem effectiveLearnRate_pos (d : ℚ) (h : ℕ) (hd : 0 < d) :
    0 < effectiveLearnRate d h := by
  unfold effectiveLearnRate
  have hpl : 0 < P_LEARN * d := by
    simp only [P_LEARN]; positivity
  split_ifs with hh
  · exact mul_pos hpl (lt_of_lt_of_le (by norm_num) (le_max_left (1/2) _))
  · exact hpl

/-- C5 counterexample: at a starting mastery probability of exactly 1, a
correct attempt leaves the probability at 1, so the update is not strictly
increasing for every starting probability. -/
theorem C5_fixed_point_counterexample : ¬ (bktUpdate 1 true 1 0 > 1) := by
  rw [bktUpdate_true_eq]
  have h1 : (1:ℚ) * (1 - P_SLIP) / ((1:ℚ) * (1 - P_SLIP) + (1 - 1) * P_GUESS)
      = 1 := by
    simp only [P_SLIP, P_GUESS]
    norm_num
  rw [h1]
  have : clip01 (1 + (1 - 1) * effectiveLearnRate 1 0) = 1 := by
    rw [show (1:ℚ) + (1 - 1) * effectiveLearnRate 1 0 = 1 by ring]
    unfold clip01
    rw [min_self, max_eq_right (by norm_num : (0:ℚ) ≤ 1)]
  rw [this]
  exact lt_irrefl 1

/-- C5 (amended): for any starting mastery probability strictly below 1 (and
a positive difficulty factor), a correct attempt strictly increases the BKT
mastery probability, which never exceeds 1; for any starting probability
strictly above 0, an incorrect attempt strictly decreases it, and it never
drops below 0.  At the fixed points (probability 1 with a correct answer,
probability 0 with an incorrect answer) the probability is unchanged. -/
theorem C5_monotone_updates (p d : ℚ) (h : ℕ) :
    (0 ≤ p → p < 1 → 0 < d →
      p < bktUpdate p true d h ∧ bktUpdate p true d h ≤ 1)
    ∧ (0 < p → p ≤ 1 →
      bktUpdate p false d h < p ∧ 0 ≤ bktUpdate p false d h) := by
  constructor
  · intro hp0 hp1 hd
    have hL := effectiveLearnRate_pos d h hd
    rw [bktUpdate_true_eq]
    refine ⟨?_, clip01_le_one _⟩
    have hden : 0 < p * (1 - P_SLIP) + (1 - p) * P_GUESS := by
      simp only [P_SLIP, P_GUESS]; nlinarith
    set q := p * (1 - P_SLIP) / (p * (1 - P_SLIP) + (1 - p) * P_GUESS)
      with hq
    have hq1 : q ≤ 1 := by
      rw [hq, div_le_one hden]
      simp only [P_SLIP, P_GUESS]
      nlinarith
    have hx : p < q + (1 - q) * effectiveLearnRate d h := by
      rcases eq_or_lt_of_le hp0 with hp | hp
      · have hq0 : q = 0 := by
          rw [hq, ← hp]
          simp
        rw [hq0, ← hp]
        simpa using hL
      · have hpq : p < q := by
          rw [hq, lt_div_iff hden]
          simp only [P_SLIP, P_GUESS]
          nlinarith [mul_pos hp (sub_pos.2 hp1)]
        nlinarith [mul_nonneg (sub_nonneg.2 hq1) hL.le]
    exact lt_clip01 hp1 hx
  · intro hp0 hp1
    rw [bktUpdate_false_eq]
    refine ⟨?_, clip01_nonneg _⟩
    have hden : 0 < p * P_SLIP + (1 - p) * (1 - P_GUESS) := by
      simp only [P_SLIP, P_GUESS]; nlinarith
    have hy : p * P_SLIP / (p * P_SLIP + (1 - p) * (1 - P_GUESS)) * (19/20)
        < p := by
      rw [div_mul_eq_mul_div, div_lt_iff hden]
      simp only [P_SLIP, P_GUESS]
      nlinarith [mul_nonneg hp0.le (sub_nonneg.2 hp1)]
    exact max_lt hp0 (lt_of_le_of_lt (min_le_right _ _) hy)

/-- Witness for C5 at mastery 0.5, difficulty factor 1, no hints. -/
theorem C5_monotone_updates_witness :
    ((1:ℚ)/2 < bktUpdate (1/2) true 1 0 ∧ bktUpdate (1/2) true 1 0 ≤ 1)
    ∧ (bktUpdate (1/2) false 1 0 < 1/2 ∧ 0 ≤ bktUpdate (1/2) false 1 0) :=
  ⟨(C5_monotone_updates (1/2) 1 0).1 (by norm_num) (by norm_num)
    (by norm_num),
   (C5_monotone_updates (1/2) 1 0).2 (by norm_num) (by norm_num)⟩

/-- Total time accumulated by the greedy selection equals the starting total
plus the times of the selected tasks. -/
theorem selectTasks_total_eq (cs : List Candidate) (budget t : ℤ) :
    (selectTasks cs budget t).2 = t + sumTimes (selectTasks cs budget t).1 := by
  induction cs generalizing t with
  | nil => simp [selectTasks, sumTimes]
  | cons c rest ih =>
      by_cases hc : t + c.time_minutes ≤ budget
      · simp only [selectTasks, if_pos hc]
        rw [ih]
        simp [sumTimes]
        ring
      · simp only [selectTasks, if_neg hc]
        exact ih t

/-- The greedy selection never pushes the accumulated total past the
budget. -/
theorem selectTasks_le_budget (cs : List Candidate) (budget t : ℤ)
    (h : t ≤ budget) : (selectTasks cs budget t).2 ≤ budget := by
  induction cs generalizing t with
  | nil => simpa [selectTasks] using h
  | cons c rest ih =>
      by_cases hc : t + c.time_minutes ≤ budget
      · simp only [selectTasks, if_pos hc]
        exact ih _ hc
      · simp only [selectTasks, if_neg hc]
        exact ih t h

/-- Concrete candidate list for the C6 witness: a high-priority 30-minute
study task and a lower-priority 45-minute practice task against a 60-minute
budget (the greedy keeps only the first). -/
def c6Candidates : List Candidate :=
  [⟨"data_structures", "study", "easy", 9/10, 30⟩,
   ⟨"algorithms", "practice", "medium", 1/2, 45⟩]

/-- C6: `generate_adaptive_plan` raises `AttributeError` on every call — it
passes a plain dict to `analyze_weaknesses`, whose first statement reads
`request.user_id` — so no plan is ever generated and the budget invariant is
vacuous on the shipped code; the greedy selection loop the method never
reaches would satisfy it: for every candidate list and non-negative budget
the selected times sum to at most the budget and `total_study_minutes`
reports exactly that sum. -/
theorem C6_plan_generation_always_raises :
    (∀ (userId : String) (dailyStudyMinutes : ℤ),
      generateAdaptivePlan userId dailyStudyMinutes =
        Except.error "AttributeError: dict object has no attribute user_id")
    ∧ (∀ (candidates : List Candidate) (budget : ℤ), 0 ≤ budget →
      sumTimes (generatePlanCore candidates budget).tasks_today ≤ budget
      ∧ (generatePlanCore candidates budget).total_study_minutes
        = sumTimes (generatePlanCore candidates budget).tasks_today) := by
  constructor
  · intro u m
    rfl
  · intro candidates budget hb
    have h1 := selectTasks_total_eq (sortByPriority candidates) budget 0
    have h2 := selectTasks_le_budget (sortByPriority candidates) budget 0 hb
    have e1 : (generatePlanCore candidates budget).tasks_today
        = (selectTasks (sortByPriority candidates) budget 0).1 := rfl
    have e2 : (generatePlanCore candidates budget).total_study_minutes
        = (selectTasks (sortByPriority candidates) budget 0).2 := rfl
    rw [e1, e2]
    constructor
    · linarith
    · linarith

/-- Witness for C6 at a concrete request and candidate list. -/
theorem C6_plan_generation_witness :
    generateAdaptivePlan "u1" 60 =
      Except.error "AttributeError: dict object has no attribute user_id"
    ∧ (sumTimes (generatePlanCore c6Candidates 60).tasks_today ≤ 60
      ∧ (generatePlanCore c6Candidates 60).total_study_minutes
        = sumTimes (generatePlanCore c6Candidates 60).tasks_today) :=
  ⟨C6_plan_generation_always_raises.1 "u1" 60,
   C6_plan_generation_always_raises.2 c6Candidates 60 (by norm_num)⟩

/-- At zero elapsed hours the forgetting curve reports full retention. -/
theorem retentionProbability_zero (s : ℝ) : retentionProbability 0 s = 1 := by
  unfold retentionProbability clip01R
  simp [Real.exp_zero]

/-- The updated stability always stays within the [1, 30] band. -/
theorem updateStability_le_30 (s r : ℝ) (b : Bool) :
    updateStability s b r ≤ 30 := by
  unfold updateStability
  exact max_le (by norm_num) (min_le_left _ _)

/-- A successful revision at full retention never decreases a stability that
is at most 30. -/
theorem updateStability_success_ge (s : ℝ) (hs : s ≤ 30) :
    s ≤ updateStability s true 1 := by
  unfold updateStability successFactor
  rw [if_pos rfl, show (13:ℝ)/10 * (2 - (1 - 1)) = 13/5 by norm_num]
  rcases le_or_lt s 0 with h | h
  · exact le_trans (le_trans h zero_le_one) (le_max_left _ _)
  · refine le_trans (le_min hs ?_) (le_max_right _ _)
    nlinarith

/-- C9: two successful revisions in immediate succession (zero elapsed hours,
so the measured retention is exp(0) = 1) never decrease the stability: the
first call maps the stored stability s0 (the default 3.0 on a cold start
satisfies the bound) to at least s0, and the second call never decreases the
stored result again. -/
theorem C9_successive_success_nondecreasing (s0 : ℝ) (h30 : s0 ≤ 30) :
    s0 ≤ (updateRetention (some s0) true 0).stability_score
    ∧ (updateRetention (some s0) true 0).stability_score ≤
      (updateRetention
        (some ((updateRetention (some s0) true 0).stability_score))
        true 0).stability_score := by
  have e1 : ∀ s : ℝ, (updateRetention (some s) true 0).stability_score
      = updateStability s true 1 := by
    intro s
    simp [updateRetention, retentionProbability_zero]
  constructor
  · rw [e1]
    exact updateStability_success_ge s0 h30
  · simp only [e1]
    exact updateStability_success_ge _ (updateStability_le_30 _ _ _)

/-- Witness for C9 starting from the default stability 3.0. -/
theorem C9_successive_success_witness :
    (3:ℝ) ≤ (updateRetention (some 3) true 0).stability_score
    ∧ (updateRetention (some 3) true 0).stability_score ≤
      (updateRetention
        (some ((updateRetention (some 3) true 0).stability_score))
        true 0).stability_score :=
  C9_successive_success_nondecreasing 3 (by norm_num)

/-- Unfolded readiness component of `_fallback_prediction`. -/
theorem fallbackPrediction_fst (f : Fin 7 → ℝ) :
    (fallbackPrediction f).1 =
      100 * (1 / (1 + Real.exp
        (-10 * ((∑ i, f i * FEATURE_WEIGHTS i) - 1/2)))) := rfl

/-- Unfolded confidence component of `_fallback_prediction`. -/
theorem fallbackPrediction_snd (f : Fin 7 → ℝ) :
    (fallbackPrediction f).2 =
      max (3/10) (min (19/20) (1 - featureStd f * (1/2))) := rfl

/-- C1: `predict_readiness` never returns a prediction for any user or model
state — line 218 references the never-imported `timedelta`, so every call
raises `NameError` — even though the documented fallback formula itself,
evaluated on the all-0.5 feature vector, does yield the readiness midpoint
50.0. -/
theorem C1_predict_readiness_always_raises :
    (∀ (modelLoaded : Bool) (modelOutput : ℝ) (features : Fin 7 → ℝ),
      predictReadiness modelLoaded modelOutput features =
        Except.error "NameError: name timedelta is not defined")
    ∧ (fallbackPrediction (fun _ => 1/2)).1 = 50 := by
  constructor
  · intro m o f
    rfl
  · have hsum : (∑ i : Fin 7,
        (fun _ : Fin 7 => (1:ℝ)/2) i * FEATURE_WEIGHTS i) = 1/2 := by
      rw [Fin.sum_univ_seven,
        show FEATURE_WEIGHTS 0 = 1/4 from rfl,
        show FEATURE_WEIGHTS 1 = 3/20 from rfl,
        show FEATURE_WEIGHTS 2 = 3/20 from rfl,
        show FEATURE_WEIGHTS 3 = 3/20 from rfl,
        show FEATURE_WEIGHTS 4 = 3/20 from rfl,
        show FEATURE_WEIGHTS 5 = 1/10 from rfl,
        show FEATURE_WEIGHTS 6 = 1/20 from rfl]
      norm_num
    rw [fallbackPrediction_fst, hsum]
    norm_num [Real.exp_zero]

/-- C3: the passing-probability logistic is centered at a readiness score of
50, not 70: at readiness 50 the code yields exactly 0.5, and at readiness 70
it yields 1/(1+exp(-1)) > 0.5, contradicting the claimed crossover at 70. -/
theorem C3_passing_probability_centered_at_50 :
    passingProb 50 = 1/2 ∧ 1/2 < passingProb 70 := by
  constructor
  · unfold passingProb clip01R
    norm_num [Real.exp_zero, min_def, max_def]
  · unfold passingProb clip01R
    rw [show (-5 : ℝ) * (70/100 - 1/2) = -1 by norm_num]
    have he0 : (0:ℝ) < Real.exp (-1) := Real.exp_pos _
    have he1 : Real.exp (-1) < 1 := Real.exp_lt_one_iff.2 (by norm_num)
    have hx : (1:ℝ)/2 < 1 / (1 + Real.exp (-1)) := by
      rw [div_lt_div_iff (by norm_num) (by linarith)]
      linarith
    calc (1:ℝ)/2 < min 1 (1 / (1 + Real.exp (-1))) := by
          refine lt_min (by norm_num) hx
      _ ≤ max 0 (min 1 (1 / (1 + Real.exp (-1)))) := le_max_right _ _

/-- The BKT per-step confidence is clamped into [0,1]. -/
theorem bktConfidence_bounds (x : ℝ) :
    0 ≤ bktConfidence x ∧ bktConfidence x ≤ 1 := by
  unfold bktConfidence
  exact ⟨clip01R_nonneg _, clip01R_le_one _⟩

/-- Every per-step confidence produced by the `batch_update` loop is in
[0,1]. -/
theorem batchUpdateGo_confs_mem (c : ℚ) (as : List Attempt) :
    ∀ x ∈ (batchUpdateGo c as).2, 0 ≤ x ∧ x ≤ 1 := by
  induction as generalizing c with
  | nil =>
      intro x hx
      simp [batchUpdateGo] at hx
  | cons a rest ih =>
      intro x hx
      simp only [batchUpdateGo] at hx
      rcases List.mem_cons.1 hx with h | h
      · subst h
        exact bktConfidence_bounds _
      · exact ih _ x h

/-- The mean of a list of values in [0,1] is in [0,1]. -/
theorem listMean_bounds (l : List ℝ) (h0 : ∀ x ∈ l, 0 ≤ x)
    (h1 : ∀ x ∈ l, x ≤ 1) :
    0 ≤ l.sum / l.length ∧ l.sum / l.length ≤ 1 := by
  rcases eq_or_ne l [] with rfl | hne
  · simp
  · have hlen : 0 < (l.length : ℝ) := by
      exact_mod_cast List.length_pos.2 hne
    constructor
    · exact div_nonneg (List.sum_nonneg h0) hlen.le
    · rw [div_le_one hlen]
      have := List.sum_le_card_nsmul l 1 h1
      simpa using this

/-- C7 counterexample: on the trained-model path the readiness score is the
raw regressor output times 100 with no clamp, so a model output of 1.5 gives
a readiness score of 150, outside [0,100]. -/
theorem C7_trained_readiness_counterexample :
    ¬ (trainedReadiness (3/2) ≤ 100) := by
  unfold trainedReadiness
  norm_num

/-- C7 (amended): every clamped estimator output is bounded — BKT mastery
probability and confidence (per-step and batch-averaged) in [0,1], retention
probability in [0,1], passing probability in [0,1], risk score in [0,100],
fallback readiness score in [0,100] with its confidence in [0.3,0.95] — and
the trained-model readiness score, which equals 100 times the raw model
output with no clamp, lies in [0,100] whenever the raw model output lies in
[0,1]. -/
theorem C7_output_bounds :
    (∀ (p : ℚ) (c : Bool) (d : ℚ) (h : ℕ),
      0 ≤ bktUpdate p c d h ∧ bktUpdate p c d h ≤ 1)
    ∧ (∀ x : ℝ, 0 ≤ bktConfidence x ∧ bktConfidence x ≤ 1)
    ∧ (∀ (prior : ℚ) (attempts : List Attempt),
      0 ≤ (batchUpdate prior attempts).2 ∧ (batchUpdate prior attempts).2 ≤ 1)
    ∧ (∀ t s : ℝ, 0 ≤ retentionProbability t s
        ∧ retentionProbability t s ≤ 1)
    ∧ (∀ r : ℝ, 0 ≤ passingProb r ∧ passingProb r ≤ 1)
    ∧ (∀ mg rr dg cs : ℚ, 0 ≤ calculateTopicRiskScore mg rr dg cs
        ∧ calculateTopicRiskScore mg rr dg cs ≤ 100)
    ∧ (∀ f : Fin 7 → ℝ, 0 ≤ (fallbackPrediction f).1
        ∧ (fallbackPrediction f).1 ≤ 100
        ∧ 3/10 ≤ (fallbackPrediction f).2 ∧ (fallbackPrediction f).2 ≤ 19/20)
    ∧ (∀ m : ℝ, 0 ≤ m → m ≤ 1 →
        0 ≤ trainedReadiness m ∧ trainedReadiness m ≤ 100) := by
  refine ⟨?_, bktConfidence_bounds, ?_, ?_, ?_, ?_, ?_, ?_⟩
  · intro p c d h
    unfold bktUpdate
    exact ⟨clip01_nonneg _, clip01_le_one _⟩
  · intro prior attempts
    have hmem := batchUpdateGo_confs_mem prior attempts
    simp only [batchUpdate]
    by_cases he : (batchUpdateGo prior attempts).2.isEmpty = true
    · rw [if_pos he]
      norm_num
    · rw [if_neg he]
      exact listMean_bounds _ (fun x hx => (hmem x hx).1)
        (fun x hx => (hmem x hx).2)
  · intro t s
    unfold retentionProbability
    exact ⟨clip01R_nonneg _, clip01R_le_one _⟩
  · intro r
    unfold passingProb
    exact ⟨clip01R_nonneg _, clip01R_le_one _⟩
  · intro mg rr dg cs
    unfold calculateTopicRiskScore
    exact ⟨clip0100_nonneg _, clip0100_le _⟩
  · intro f
    have he := Real.exp_pos (-10 * ((∑ i, f i * FEATURE_WEIGHTS i) - 1/2))
    refine ⟨?_, ?_, ?_, ?_⟩
    · rw [fallbackPrediction_fst]
      positivity
    · rw [fallbackPrediction_fst]
      have h1 : 1 / (1 + Real.exp
          (-10 * ((∑ i, f i * FEATURE_WEIGHTS i) - 1/2))) ≤ 1 := by
        rw [div_le_one (by linarith)]
        linarith
      linarith
    · rw [fallbackPrediction_snd]
      exact le_max_left _ _
    · rw [fallbackPrediction_snd]
      exact max_le (by norm_num) (min_le_left _ _)
  · intro m h0 h1
    unfold trainedReadiness
    constructor <;> nlinarith

/-- Witness for C7 applying the trained-model bound at output 0.5. -/
theorem C7_output_bounds_witness :
    0 ≤ trainedReadiness (1/2) ∧ trainedReadiness (1/2) ≤ 100 :=
  C7_output_bounds.2.2.2.2.2.2.2 (1/2) (by norm_num) (by norm_num)

end PrepMate
